import Mathlib

/-!
# Verification of the polling core of the runwayml-mcp-server repository

Shallow embedding of the asynchronous job-polling logic of the repository:
`pollLumaTask` (src/src/utils/luma-polling.ts) and `pollRunwayTask`
(src/unnamed/part_001), together with the parts of
`generateTextToVideoTool` (src/src/tools/text-to-video-tool.ts) and
`lumaGenerateImageTool` (second unit of src/src/utils/luma-polling.ts)
that the claims refer to.

Both pollers have the literally identical driver skeleton

```
let attempts = 0;
const intervalId = setInterval(async () => {
  attempts++;
  if (attempts > MAX_POLLING_ATTEMPTS) { clearInterval; TIMEOUT; reject }
  try { snapshot = await fetch(); switch (snapshot.status) {...} }
  catch (e) { if (APIError && 404) { clearInterval; FAILED; reject }
              else sendProgress('POLLING_ERROR') }
}, POLLING_INTERVAL_MS);
```

which we embed once as `pollLoop`, a fold over the trace of fetch results,
parameterized by the per-provider tick body (`lumaTickOnResult`,
`runwayTickOnResult`: the direct embeddings of each poller's
try/switch/catch).  A trace element is either a status snapshot or a
thrown transport error.  The run records the final value of the `attempts`
counter, the list of `sendProgress(status, data)` calls the completed
ticks made, and the outcome of the promise (resolved/rejected/still
pending).
-/

namespace VideoGen

/-- JS truthiness of an optional string value: `undefined`, `null` and the
empty string are falsy, every other string is truthy. -/
def jsTruthy : Option String → Bool
  | some s => !(s == "")
  | none => false

/-- JS `a || d` for an optional string `a` (used for
`generationStatus.failure_reason || 'Unknown failure reason'`). -/
def jsOr (o : Option String) (d : String) : String :=
  match o with
  | some s => if s == "" then d else s
  | none => d

/-- The MCP SDK error codes used by the repository. -/
inductive ErrorCode where
  | InvalidRequest
  | InvalidParams
  | InternalError
deriving DecidableEq

/-- The JSON-RPC numeric value of each error code, as defined by the MCP SDK. -/
def ErrorCode.toInt : ErrorCode → Int
  | .InvalidRequest => -32600
  | .InvalidParams => -32602
  | .InternalError => -32603

/-- An `McpError` as constructed by `new McpError(code, message)`. -/
structure McpError where
  code : ErrorCode
  message : String
deriving DecidableEq

/-- The `Error.message` property of an `McpError`: the SDK constructor calls
`super("MCP error " + code + ": " + message)`. -/
def McpError.jsMessage (e : McpError) : String :=
  "MCP error " ++ toString e.code.toInt ++ ": " ++ e.message

/-- One call to a poller's local `sendProgress(status, data)` helper: the
status label together with the optional `data` argument, modelled as a list
of string fields. -/
abbrev ProgressCall := String × Option (List (String × String))

/-- A notification actually written to the MCP exchange by `sendProgress`:
`mcpExchange.sendProgress({ token, value: { status, ...(data && { k: data }) } })`
where the wrapper key `k` is `result` for the Luma poller and `data` for the
Runway poller. -/
structure ProgressNotification where
  token : String
  status : String
  payload : Option (String × List (String × String))
deriving DecidableEq

/-- A transport error thrown by a status-fetch call: whether it is an
`instanceof` of the provider SDK's `APIError` class, its HTTP status, and
its `message`. -/
structure ApiErrorInfo where
  isProviderAPIError : Bool
  status : Nat
  message : String
deriving DecidableEq

/-- The result of one status-fetch round trip: a snapshot, or a thrown
transport error (the `catch` branch of the tick). -/
inductive FetchResult (σ : Type) where
  | ok (snapshot : σ)
  | err (e : ApiErrorInfo)
deriving DecidableEq

/-- A terminal settlement of the poller's promise. -/
inductive Terminal where
  | resolved (url : String)
  | rejected (e : McpError)
deriving DecidableEq

/-- Observable outcome of running a poller against a trace of fetch
results: settled, or still pending with the trace exhausted. -/
inductive PollOutcome where
  | resolved (url : String)
  | rejected (e : McpError)
  | running
deriving DecidableEq

def Terminal.toOutcome : Terminal → PollOutcome
  | .resolved u => .resolved u
  | .rejected e => .rejected e

/-- State after running a poller on a trace: final value of the `attempts`
counter, the `sendProgress` calls made by completed ticks (in order), and
the promise outcome. -/
structure PollResult where
  attempts : Nat
  events : List ProgressCall
  outcome : PollOutcome
deriving DecidableEq

/-- `POLLING_INTERVAL_MS = 5000` in both polling modules. -/
def POLLING_INTERVAL_MS : Nat := 5000

/-- `MAX_POLLING_ATTEMPTS = 60` in both polling modules. -/
def MAX_POLLING_ATTEMPTS : Nat := 60

/-- The shared `setInterval` driver of both pollers, run against a trace of
fetch results.  Each tick first increments `attempts`, then checks
`attempts > maxAttempts` (timing out without issuing a fetch), and
otherwise consumes the next fetch result and runs the provider tick body
`tick` on it; a terminal tick clears the interval, so the rest of the
trace is ignored.  An exhausted trace with the bound not yet reached
leaves the session `running`. -/
def pollLoop {α : Type} (tick : α → List ProgressCall × Option Terminal)
    (timeoutError : McpError) (maxAttempts : Nat) :
    Nat → List α → PollResult
  | attempts, [] =>
    if attempts + 1 > maxAttempts then
      { attempts := attempts + 1
        events := [("TIMEOUT", none)]
        outcome := .rejected timeoutError }
    else
      { attempts := attempts, events := [], outcome := .running }
  | attempts, r :: rest =>
    if attempts + 1 > maxAttempts then
      { attempts := attempts + 1
        events := [("TIMEOUT", none)]
        outcome := .rejected timeoutError }
    else
      match (tick r).2 with
      | some term =>
        { attempts := attempts + 1
          events := (tick r).1
          outcome := term.toOutcome }
      | none =>
        { attempts := (pollLoop tick timeoutError maxAttempts (attempts + 1) rest).attempts
          events := (tick r).1
            ++ (pollLoop tick timeoutError maxAttempts (attempts + 1) rest).events
          outcome := (pollLoop tick timeoutError maxAttempts (attempts + 1) rest).outcome }

/-! ## Luma poller (src/src/utils/luma-polling.ts, `pollLumaTask`) -/

/-- `generationStatus.assets` of a Luma generation snapshot. -/
structure LumaAssets where
  video : Option String
  image : Option String
deriving DecidableEq

/-- A Luma generation status snapshot, as read by the poller. -/
structure LumaGeneration where
  state : String
  assets : Option LumaAssets
  failure_reason : Option String
deriving DecidableEq

/-- The asset-selection chain of the `completed` branch: the chosen
`assetUrl` (via `assets?.video` / `assets?.image`) and the progress key
(`videoUrl` / `imageUrl` / `upscaledVideoUrl`, default `assetUrl`). -/
def lumaAssetSelect (expectedAssetType : String) (assets : Option LumaAssets) :
    Option String × String :=
  if expectedAssetType = "video" then
    (assets.bind (fun a => a.video), "videoUrl")
  else if expectedAssetType = "image" then
    (assets.bind (fun a => a.image), "imageUrl")
  else if expectedAssetType = "upscaled_video" then
    (assets.bind (fun a => a.video), "upscaledVideoUrl")
  else
    (none, "assetUrl")

/-- `generationStatus.failure_reason || 'Unknown failure reason'`. -/
def lumaFailureReasonOf (g : LumaGeneration) : String :=
  jsOr g.failure_reason "Unknown failure reason"

/-- JS `String.prototype.toUpperCase()`: per-character uppercasing,
written over the character list so that it evaluates by `decide`. -/
def jsToUpperCase (s : String) : String :=
  String.mk (s.data.map Char.toUpper)

/-- The body of one Luma poll tick on a completed fetch: the
`switch (generationStatus.state)` on a snapshot, and the `catch` branch on
a thrown error.  Returns the `sendProgress` calls of the tick and the
terminal settlement, if any (`none` keeps polling). -/
def lumaTickOnResult (generationId expectedAssetType : String) :
    FetchResult LumaGeneration → List ProgressCall × Option Terminal
  | .ok g =>
    if g.state = "completed" then
      let sel := lumaAssetSelect expectedAssetType g.assets
      if jsTruthy sel.1 then
        ([("SUCCEEDED", some [(sel.2, sel.1.getD "")])],
         some (.resolved (sel.1.getD "")))
      else
        ([("FAILED", some [("reason",
            "Task completed but no " ++ expectedAssetType ++ " URL found.")])],
         some (.rejected ⟨.InternalError,
            "Luma AI task " ++ generationId ++ " Task completed but no "
              ++ expectedAssetType ++ " URL found."⟩))
    else if g.state = "failed" then
      ([("FAILED", some [("reason", lumaFailureReasonOf g)])],
       some (.rejected ⟨.InternalError,
          "Luma AI task " ++ generationId ++ " failed: " ++ lumaFailureReasonOf g⟩))
    else if g.state = "queued" ∨ g.state = "dreaming" then
      ([(jsToUpperCase g.state, none)], none)
    else
      ([("UNKNOWN_STATUS", some [("status", g.state)])], none)
  | .err e =>
    if e.isProviderAPIError = true ∧ e.status = 404 then
      ([("FAILED", some [("reason",
          "Generation ID " ++ generationId ++ " not found.")])],
       some (.rejected ⟨.InvalidRequest,
          "Luma AI generation ID " ++ generationId ++ " not found."⟩))
    else
      ([("POLLING_ERROR", some [("message", e.message)])], none)

/-- The options object passed to `pollLumaTask`; `expectedAssetType` is
`none` when the caller does not pass the field (the destructuring default
is then `'video'`). -/
structure LumaPollOptions where
  generationId : String
  progressToken : Option String
  expectedAssetType : Option String
deriving DecidableEq

/-- The tick body of `pollLumaTask` for a given options object, with the
`expectedAssetType = 'video'` destructuring default applied. -/
def lumaTick (o : LumaPollOptions) :
    FetchResult LumaGeneration → List ProgressCall × Option Terminal :=
  lumaTickOnResult o.generationId (o.expectedAssetType.getD "video")

/-- The timeout rejection of `pollLumaTask`. -/
def lumaTimeoutError (o : LumaPollOptions) : McpError :=
  ⟨.InternalError, "Polling timed out for Luma AI task " ++ o.generationId⟩

/-- `pollLumaTask` with the attempt bound as an explicit parameter (the
source fixes it to `MAX_POLLING_ATTEMPTS`). -/
def pollLumaTaskBounded (o : LumaPollOptions) (maxAttempts : Nat)
    (trace : List (FetchResult LumaGeneration)) : PollResult :=
  pollLoop (lumaTick o) (lumaTimeoutError o) maxAttempts 0 trace

/-- `pollLumaTask`, run against a trace of fetch results. -/
def pollLumaTask (o : LumaPollOptions)
    (trace : List (FetchResult LumaGeneration)) : PollResult :=
  pollLumaTaskBounded o MAX_POLLING_ATTEMPTS trace

/-- The `sendProgress` closure of `pollLumaTask`: a no-op unless
`progressToken` is truthy; otherwise one notification whose value nests
the data under the key `result`. -/
def lumaSendProgress (progressToken : Option String) (c : ProgressCall) :
    List ProgressNotification :=
  if jsTruthy progressToken then
    [{ token := progressToken.getD ""
       status := c.1
       payload := c.2.map (fun d => ("result", d)) }]
  else []

/-- All notifications the Luma poller writes to the exchange for a list of
`sendProgress` calls. -/
def lumaChannelMessages (progressToken : Option String)
    (events : List ProgressCall) : List ProgressNotification :=
  (events.map (lumaSendProgress progressToken)).flatten

/-! ## Runway poller (src/unnamed/part_001, `pollRunwayTask`) -/

/-- A RunwayML task status snapshot, as read by the poller. -/
structure RunwayTask where
  status : String
  output : Option (List String)
deriving DecidableEq

/-- The body of one Runway poll tick on a completed fetch: the
`switch (taskStatus.status)` on a snapshot, and the `catch` branch on a
thrown error. -/
def runwayTickOnResult (taskId : String) :
    FetchResult RunwayTask → List ProgressCall × Option Terminal
  | .ok t =>
    if t.status = "SUCCEEDED" then
      match t.output with
      | some (videoUrl :: _) =>
        ([("SUCCEEDED", some [("videoUrl", videoUrl)])],
         some (.resolved videoUrl))
      | _ =>
        ([("FAILED", some [("reason", "Task succeeded but no output URL found.")])],
         some (.rejected ⟨.InternalError,
            "RunwayML task " ++ taskId ++ " succeeded but returned no output URL."⟩))
    else if t.status = "FAILED" then
      ([("FAILED", some [("reason", "RunwayML task failed (Status: FAILED)")])],
       some (.rejected ⟨.InternalError, "RunwayML task failed (Status: FAILED)"⟩))
    else if t.status = "PENDING" ∨ t.status = "RUNNING" then
      ([(t.status, none)], none)
    else
      ([("UNKNOWN_STATUS", some [("status", t.status)])], none)
  | .err e =>
    if e.isProviderAPIError = true ∧ e.status = 404 then
      ([("FAILED", some [("reason", "Task ID " ++ taskId ++ " not found.")])],
       some (.rejected ⟨.InvalidRequest,
          "RunwayML task ID " ++ taskId ++ " not found."⟩))
    else
      ([("POLLING_ERROR", some [("message", e.message)])], none)

/-- The options object passed to `pollRunwayTask`. -/
structure RunwayPollOptions where
  taskId : String
  progressToken : Option String
deriving DecidableEq

/-- The tick body of `pollRunwayTask` for a given options object. -/
def runwayTick (o : RunwayPollOptions) :
    FetchResult RunwayTask → List ProgressCall × Option Terminal :=
  runwayTickOnResult o.taskId

/-- The timeout rejection of `pollRunwayTask`. -/
def runwayTimeoutError (o : RunwayPollOptions) : McpError :=
  ⟨.InternalError, "Polling timed out for RunwayML task " ++ o.taskId⟩

/-- `pollRunwayTask` with the attempt bound as an explicit parameter (the
source fixes it to `MAX_POLLING_ATTEMPTS`). -/
def pollRunwayTaskBounded (o : RunwayPollOptions) (maxAttempts : Nat)
    (trace : List (FetchResult RunwayTask)) : PollResult :=
  pollLoop (runwayTick o) (runwayTimeoutError o) maxAttempts 0 trace

/-- `pollRunwayTask`, run against a trace of fetch results. -/
def pollRunwayTask (o : RunwayPollOptions)
    (trace : List (FetchResult RunwayTask)) : PollResult :=
  pollRunwayTaskBounded o MAX_POLLING_ATTEMPTS trace

/-- The `sendProgress` closure of `pollRunwayTask`: a no-op unless
`progressToken` is truthy; otherwise one notification whose value nests
the data under the key `data`. -/
def runwaySendProgress (progressToken : Option String) (c : ProgressCall) :
    List ProgressNotification :=
  if jsTruthy progressToken then
    [{ token := progressToken.getD ""
       status := c.1
       payload := c.2.map (fun d => ("data", d)) }]
  else []

/-- All notifications the Runway poller writes to the exchange for a list
of `sendProgress` calls. -/
def runwayChannelMessages (progressToken : Option String)
    (events : List ProgressCall) : List ProgressNotification :=
  (events.map (runwaySendProgress progressToken)).flatten

/-! ## generate_text_to_video tool (src/src/tools/text-to-video-tool.ts) -/

/-- The `provider` field of `generateTextToVideoSchema`:
`z.enum(['runwayml', 'lumaai']).optional().default('runwayml')`.  A missing
field defaults to `runwayml`; a value outside the enum is a zod validation
error, surfaced as an `InvalidParams` `McpError` before the `try` block. -/
def parseProvider : Option String → Except McpError String
  | none => .ok "runwayml"
  | some s =>
    if s = "runwayml" ∨ s = "lumaai" then .ok s
    else .error ⟨.InvalidParams, "Invalid arguments: provider - invalid enum value"⟩

/-- Control flow of the `try` block of `generateTextToVideoTool` on the
validated provider.  The RunwayML branch is commented out in the source,
so the live dispatch is `if (provider === 'lumaai') {...} else { throw }`. -/
inductive T2VBody where
  | lumaBranch
  | thrown (e : McpError)
deriving DecidableEq

def generateTextToVideoBody (provider : String) : T2VBody :=
  if provider = "lumaai" then .lumaBranch
  else .thrown ⟨.InvalidParams, "Invalid provider: " ++ provider⟩

/-- Outcome of `generateTextToVideoTool` as observed by its caller:
either a Luma generation job was initiated, or the tool threw an
`McpError`. -/
inductive T2VResult where
  | lumaJobStarted
  | failed (e : McpError)
deriving DecidableEq

/-- `generateTextToVideoTool`, restricted to provider validation and
dispatch (the Luma branch's remote calls are abstracted as succeeding).
An error thrown inside the `try` block that is neither an Axios error with
`provider === 'runwayml'` nor a `LumaAI.APIError` with
`provider === 'lumaai'` — in particular the `Invalid provider` `McpError` —
is re-wrapped by the tool's own `catch` into the fallback
`InternalError` `McpError`, whose message embeds `error.message`. -/
def generateTextToVideoTool (providerArg : Option String) : T2VResult :=
  match parseProvider providerArg with
  | .error e => .failed e
  | .ok provider =>
    match generateTextToVideoBody provider with
    | .lumaBranch => .lumaJobStarted
    | .thrown e =>
      .failed ⟨.InternalError,
        "Failed to initiate " ++ provider ++ " text-to-video task: " ++ e.jsMessage⟩

/-! ## luma_generate_image tool (second unit of src/src/utils/luma-polling.ts) -/

/-- The options `lumaGenerateImageTool` passes to `pollLumaTask`: only
`lumaClient`, `generationId`, `mcpExchange` and `progressToken` — no
`expectedAssetType` field is supplied. -/
def lumaGenerateImagePollOptions (generationId : String)
    (progressToken : Option String) : LumaPollOptions :=
  { generationId := generationId
    progressToken := progressToken
    expectedAssetType := none }

/-! ## General laws of the shared driver loop -/

/-- Number of `sendProgress` calls with a given status label. -/
def countStatus (s : String) (events : List ProgressCall) : Nat :=
  (events.filter (fun c => c.1 == s)).length

theorem countStatus_append (s : String) (l1 l2 : List ProgressCall) :
    countStatus s (l1 ++ l2) = countStatus s l1 + countStatus s l2 := by
  simp [countStatus, List.filter_append]

theorem countStatus_eq_zero (s : String) (l : List ProgressCall)
    (h : ∀ c ∈ l, c.1 ≠ s) : countStatus s l = 0 := by
  have : l.filter (fun c => c.1 == s) = [] := by
    rw [List.filter_eq_nil_iff]
    intro c hc
    simpa using h c hc
  simp [countStatus, this]

/-- A tick fired with the attempt budget already exhausted times out and
rejects, whatever the trace still holds: no fetch result is consumed. -/
theorem pollLoop_timeout {α : Type} (tick : α → List ProgressCall × Option Terminal)
    (te : McpError) (m a : Nat) (trace : List α) (h : m ≤ a) :
    pollLoop tick te m a trace =
      { attempts := a + 1, events := [("TIMEOUT", none)], outcome := .rejected te } := by
  have hgt : a + 1 > m := by omega
  cases trace with
  | nil => simp only [pollLoop, if_pos hgt]
  | cons r rest => simp only [pollLoop, if_pos hgt]

/-- With budget left and no further fetch result modelled, the session is
still pending. -/
theorem pollLoop_nil_running {α : Type} (tick : α → List ProgressCall × Option Terminal)
    (te : McpError) (m a : Nat) (h : a < m) :
    pollLoop tick te m a ([] : List α) = { attempts := a, events := [], outcome := .running } := by
  have hng : ¬ (a + 1 > m) := by omega
  simp only [pollLoop, if_neg hng]

/-- A tick whose body reaches a terminal classification settles the run at
once; the rest of the trace is discarded (the interval was cleared). -/
theorem pollLoop_cons_terminal {α : Type} (tick : α → List ProgressCall × Option Terminal)
    (te : McpError) (m a : Nat) (r : α) (rest : List α) (term : Terminal)
    (ht : (tick r).2 = some term) (hm : a + 1 ≤ m) :
    pollLoop tick te m a (r :: rest) =
      { attempts := a + 1, events := (tick r).1, outcome := term.toOutcome } := by
  have hng : ¬ (a + 1 > m) := by omega
  simp only [pollLoop, if_neg hng, ht]

/-- A tick whose body does not terminate contributes its events and hands
control to the next tick with the counter incremented. -/
theorem pollLoop_cons_nonterminal {α : Type} (tick : α → List ProgressCall × Option Terminal)
    (te : McpError) (m a : Nat) (r : α) (rest : List α)
    (ht : (tick r).2 = none) (hm : a + 1 ≤ m) :
    pollLoop tick te m a (r :: rest) =
      { attempts := (pollLoop tick te m (a + 1) rest).attempts
        events := (tick r).1 ++ (pollLoop tick te m (a + 1) rest).events
        outcome := (pollLoop tick te m (a + 1) rest).outcome } := by
  have hng : ¬ (a + 1 > m) := by omega
  simp only [pollLoop, if_neg hng, ht]

/-- Running through a prefix of non-terminal ticks advances the counter by
the prefix length and prepends the prefix's events. -/
theorem pollLoop_append_nonterminal {α : Type} (tick : α → List ProgressCall × Option Terminal)
    (te : McpError) (m : Nat) :
    ∀ (pre suf : List α) (a : Nat),
      (∀ r ∈ pre, (tick r).2 = none) → a + pre.length ≤ m →
      pollLoop tick te m a (pre ++ suf) =
        { attempts := (pollLoop tick te m (a + pre.length) suf).attempts
          events := (pre.map (fun r => (tick r).1)).flatten
            ++ (pollLoop tick te m (a + pre.length) suf).events
          outcome := (pollLoop tick te m (a + pre.length) suf).outcome } := by
  intro pre
  induction pre with
  | nil =>
    intro suf a h hm
    simp
  | cons r pre ih =>
    intro suf a h hm
    have hr : (tick r).2 = none := h r (List.mem_cons_self r pre)
    have hm1 : a + 1 ≤ m := by
      simp only [List.length_cons] at hm
      omega
    rw [List.cons_append, pollLoop_cons_nonterminal tick te m a r (pre ++ suf) hr hm1]
    rw [ih suf (a + 1) (fun x hx => h x (List.mem_cons_of_mem r hx))
      (by simp only [List.length_cons] at hm; omega)]
    have hae : a + 1 + pre.length = a + (pre.length + 1) := by omega
    simp [hae, List.append_assoc]

/-- No `sendProgress` call made by a Luma tick body carries the status
label `TIMEOUT` (that label is emitted only by the driver's timeout
branch). -/
theorem lumaTickOnResult_no_timeout (gid ty : String) (r : FetchResult LumaGeneration) :
    ∀ c ∈ (lumaTickOnResult gid ty r).1, c.1 ≠ "TIMEOUT" := by
  intro c hc
  cases r with
  | ok g =>
    simp only [lumaTickOnResult] at hc
    split at hc
    · split at hc
      · simp at hc
        simp [hc]
      · simp at hc
        simp [hc]
    · split at hc
      · simp at hc
        simp [hc]
      · split at hc
        · next hq =>
          simp at hc
          rcases hq with hq | hq <;> (subst hc; rw [hq]; decide)
        · simp at hc
          simp [hc]
  | err e =>
    simp only [lumaTickOnResult] at hc
    split at hc
    · simp at hc
      simp [hc]
    · simp at hc
      simp [hc]

/-- No `sendProgress` call made by a Runway tick body carries the status
label `TIMEOUT`. -/
theorem runwayTickOnResult_no_timeout (tid : String) (r : FetchResult RunwayTask) :
    ∀ c ∈ (runwayTickOnResult tid r).1, c.1 ≠ "TIMEOUT" := by
  intro c hc
  cases r with
  | ok t =>
    simp only [runwayTickOnResult] at hc
    split at hc
    · split at hc
      · simp at hc
        simp [hc]
      · simp at hc
        simp [hc]
    · split at hc
      · simp at hc
        simp [hc]
      · split at hc
        · next hp =>
          simp at hc
          rcases hp with hp | hp <;> (subst hc; rw [hp]; decide)
        · simp at hc
          simp [hc]
  | err e =>
    simp only [runwayTickOnResult] at hc
    split at hc
    · simp at hc
      simp [hc]
    · simp at hc
      simp [hc]

/-- The events of a non-terminal prefix contain no `TIMEOUT` label. -/
theorem countStatus_timeout_flatten_zero {α : Type}
    (tick : α → List ProgressCall × Option Terminal)
    (hno : ∀ r, ∀ c ∈ (tick r).1, c.1 ≠ "TIMEOUT") (pre : List α) :
    countStatus "TIMEOUT" ((pre.map (fun r => (tick r).1)).flatten) = 0 := by
  apply countStatus_eq_zero
  intro c hc
  rw [List.mem_flatten] at hc
  obtain ⟨l, hl, hcl⟩ := hc
  rw [List.mem_map] at hl
  obtain ⟨r, _, hr⟩ := hl
  exact hno r c (hr ▸ hcl)

/-! ## Per-branch tick lemmas -/

/-- A non-404 transport error keeps the Luma session alive and emits
`POLLING_ERROR` with the error message. -/
theorem lumaTick_err_non404 (o : LumaPollOptions) (e : ApiErrorInfo)
    (h : ¬(e.isProviderAPIError = true ∧ e.status = 404)) :
    lumaTick o (FetchResult.err e)
      = ([("POLLING_ERROR", some [("message", e.message)])], none) := by
  simp only [lumaTick, lumaTickOnResult, if_neg h]

/-- A provider APIError with HTTP status 404 is terminal for the Luma
session. -/
theorem lumaTick_err_404 (o : LumaPollOptions) (e : ApiErrorInfo)
    (h1 : e.isProviderAPIError = true) (h2 : e.status = 404) :
    lumaTick o (FetchResult.err e)
      = ([("FAILED", some [("reason",
            "Generation ID " ++ o.generationId ++ " not found.")])],
         some (Terminal.rejected ⟨ErrorCode.InvalidRequest,
            "Luma AI generation ID " ++ o.generationId ++ " not found."⟩)) := by
  simp only [lumaTick, lumaTickOnResult, if_pos (And.intro h1 h2)]

/-- A `completed` Luma snapshot whose selected asset URL is falsy is
terminal with a `FAILED` classification. -/
theorem lumaTick_completed_no_asset (o : LumaPollOptions) (g : LumaGeneration)
    (hst : g.state = "completed")
    (hurl : jsTruthy (lumaAssetSelect (o.expectedAssetType.getD "video") g.assets).1 = false) :
    lumaTick o (FetchResult.ok g)
      = ([("FAILED", some [("reason",
            "Task completed but no " ++ (o.expectedAssetType.getD "video") ++ " URL found.")])],
         some (Terminal.rejected ⟨ErrorCode.InternalError,
            "Luma AI task " ++ o.generationId ++ " Task completed but no "
              ++ (o.expectedAssetType.getD "video") ++ " URL found."⟩)) := by
  simp [lumaTick, lumaTickOnResult, hst, hurl]

/-- A `failed` Luma snapshot is terminal; its reason is
`failure_reason || 'Unknown failure reason'`. -/
theorem lumaTick_failed (o : LumaPollOptions) (g : LumaGeneration)
    (hst : g.state = "failed") :
    lumaTick o (FetchResult.ok g)
      = ([("FAILED", some [("reason", lumaFailureReasonOf g)])],
         some (Terminal.rejected ⟨ErrorCode.InternalError,
            "Luma AI task " ++ o.generationId ++ " failed: " ++ lumaFailureReasonOf g⟩)) := by
  simp [lumaTick, lumaTickOnResult, hst]

/-- A non-404 transport error keeps the Runway session alive and emits
`POLLING_ERROR` with the error message. -/
theorem runwayTick_err_non404 (o : RunwayPollOptions) (e : ApiErrorInfo)
    (h : ¬(e.isProviderAPIError = true ∧ e.status = 404)) :
    runwayTick o (FetchResult.err e)
      = ([("POLLING_ERROR", some [("message", e.message)])], none) := by
  simp only [runwayTick, runwayTickOnResult, if_neg h]

/-- A provider APIError with HTTP status 404 is terminal for the Runway
session. -/
theorem runwayTick_err_404 (o : RunwayPollOptions) (e : ApiErrorInfo)
    (h1 : e.isProviderAPIError = true) (h2 : e.status = 404) :
    runwayTick o (FetchResult.err e)
      = ([("FAILED", some [("reason", "Task ID " ++ o.taskId ++ " not found.")])],
         some (Terminal.rejected ⟨ErrorCode.InvalidRequest,
            "RunwayML task ID " ++ o.taskId ++ " not found."⟩)) := by
  simp only [runwayTick, runwayTickOnResult, if_pos (And.intro h1 h2)]

/-- A `SUCCEEDED` Runway snapshot with an absent or empty output list is
terminal with a `FAILED` classification. -/
theorem runwayTick_succeeded_no_output (o : RunwayPollOptions) (t : RunwayTask)
    (hst : t.status = "SUCCEEDED")
    (hout : t.output = none ∨ t.output = some []) :
    runwayTick o (FetchResult.ok t)
      = ([("FAILED", some [("reason", "Task succeeded but no output URL found.")])],
         some (Terminal.rejected ⟨ErrorCode.InternalError,
            "RunwayML task " ++ o.taskId ++ " succeeded but returned no output URL."⟩)) := by
  rcases hout with hout | hout <;> simp [runwayTick, runwayTickOnResult, hst, hout]

/-! ## Claims -/

/-- C7: for every progress emission attempted by either poller, if no
progress token was supplied to the poll session then the emit call is a
no-op: no message is sent to the notification channel, for any status
label or payload. -/
theorem claim7_no_token_no_emission (c : ProgressCall) (events : List ProgressCall) :
    lumaSendProgress none c = []
    ∧ runwaySendProgress none c = []
    ∧ lumaChannelMessages none events = []
    ∧ runwayChannelMessages none events = [] := by
  refine ⟨rfl, rfl, ?_, ?_⟩ <;>
    simp [lumaChannelMessages, runwayChannelMessages,
      lumaSendProgress, runwaySendProgress, jsTruthy]

/-- C1 is false on the code: in both pollers `attempts++` runs at the top
of the interval callback, before the status fetch, so a tick whose fetch
throws a transport error still increments the counter (here from 0 to 1,
while the claim says it stays 0), and transport-error ticks count toward
the timeout bound (two error ticks exhaust a bound of 2 and the next tick
rejects with the timeout error). -/
theorem claim1_counterexample :
    (pollLumaTask ⟨"gen-1", none, none⟩
        [FetchResult.err ⟨false, 500, "socket hang up"⟩]).attempts = 1
    ∧ ¬ (pollLumaTask ⟨"gen-1", none, none⟩
        [FetchResult.err ⟨false, 500, "socket hang up"⟩]).attempts = 0
    ∧ (pollRunwayTask ⟨"task-1", none⟩
        [FetchResult.err ⟨false, 500, "socket hang up"⟩]).attempts = 1
    ∧ (pollLumaTaskBounded ⟨"gen-2", none, none⟩ 2
        (List.replicate 2 (FetchResult.err ⟨false, 500, "socket hang up"⟩))).outcome
      = PollOutcome.rejected (lumaTimeoutError ⟨"gen-2", none, none⟩) := by
  refine ⟨by decide, by decide, by decide, by decide⟩

/-- C1 (amended): in every poll tick of both pollers `attemptsElapsed` is
incremented at the start of the tick, before the fetch, so a tick whose
fetch raises a (non-404) transport error advances the counter exactly like
a tick with a completed fetch, and every completed tick — transport-error
ticks included — counts toward the `maxAttempts` timeout bound: a trace of
`maxAttempts` transport errors exhausts the bound and the following tick
times out. -/
theorem claim1_amended (o : LumaPollOptions) (o2 : RunwayPollOptions)
    (m a : Nat) (e : ApiErrorInfo)
    (rest : List (FetchResult LumaGeneration)) (rest2 : List (FetchResult RunwayTask))
    (h404 : ¬(e.isProviderAPIError = true ∧ e.status = 404))
    (hm : a + 1 ≤ m) :
    (pollLoop (lumaTick o) (lumaTimeoutError o) m a (FetchResult.err e :: rest)).attempts
      = (pollLoop (lumaTick o) (lumaTimeoutError o) m (a + 1) rest).attempts
    ∧ (pollLoop (runwayTick o2) (runwayTimeoutError o2) m a (FetchResult.err e :: rest2)).attempts
      = (pollLoop (runwayTick o2) (runwayTimeoutError o2) m (a + 1) rest2).attempts
    ∧ (pollLumaTaskBounded o m (List.replicate m (FetchResult.err e))).outcome
      = PollOutcome.rejected (lumaTimeoutError o)
    ∧ (pollRunwayTaskBounded o2 m (List.replicate m (FetchResult.err e))).outcome
      = PollOutcome.rejected (runwayTimeoutError o2) := by
  have hl : (lumaTick o (FetchResult.err e)).2 = none := by
    rw [lumaTick_err_non404 o e h404]
  have hr : (runwayTick o2 (FetchResult.err e)).2 = none := by
    rw [runwayTick_err_non404 o2 e h404]
  refine ⟨?_, ?_, ?_, ?_⟩
  · rw [pollLoop_cons_nonterminal _ _ m a _ rest hl hm]
  · rw [pollLoop_cons_nonterminal _ _ m a _ rest2 hr hm]
  · rw [pollLumaTaskBounded, ← List.append_nil (List.replicate m (FetchResult.err e))]
    rw [pollLoop_append_nonterminal _ _ m _ [] 0
      (fun r hri => by rw [List.eq_of_mem_replicate hri]; exact hl)
      (by simp)]
    rw [List.length_replicate, pollLoop_timeout _ _ m (0 + m) [] (by omega)]
  · rw [pollRunwayTaskBounded, ← List.append_nil (List.replicate m (FetchResult.err e))]
    rw [pollLoop_append_nonterminal _ _ m _ [] 0
      (fun r hri => by rw [List.eq_of_mem_replicate hri]; exact hr)
      (by simp)]
    rw [List.length_replicate, pollLoop_timeout _ _ m (0 + m) [] (by omega)]

/-- Witness for C1 (amended) at a concrete session. -/
theorem claim1_amended_witness :
    (pollLoop (lumaTick ⟨"g", none, none⟩) (lumaTimeoutError ⟨"g", none, none⟩) 60 0
        (FetchResult.err ⟨false, 500, "x"⟩ :: [])).attempts
      = (pollLoop (lumaTick ⟨"g", none, none⟩) (lumaTimeoutError ⟨"g", none, none⟩) 60 1 []).attempts
    ∧ (pollLoop (runwayTick ⟨"t", none⟩) (runwayTimeoutError ⟨"t", none⟩) 60 0
        (FetchResult.err ⟨false, 500, "x"⟩ :: [])).attempts
      = (pollLoop (runwayTick ⟨"t", none⟩) (runwayTimeoutError ⟨"t", none⟩) 60 1 []).attempts
    ∧ (pollLumaTaskBounded ⟨"g", none, none⟩ 60
        (List.replicate 60 (FetchResult.err ⟨false, 500, "x"⟩))).outcome
      = PollOutcome.rejected (lumaTimeoutError ⟨"g", none, none⟩)
    ∧ (pollRunwayTaskBounded ⟨"t", none⟩ 60
        (List.replicate 60 (FetchResult.err ⟨false, 500, "x"⟩))).outcome
      = PollOutcome.rejected (runwayTimeoutError ⟨"t", none⟩) :=
  claim1_amended ⟨"g", none, none⟩ ⟨"t", none⟩ 60 0 ⟨false, 500, "x"⟩ [] []
    (by decide) (by omega)

/-- C4: a status fetch that throws a provider APIError with HTTP status
404 terminates the session immediately as FAILED with a "not found"
reason: the tick is terminal (the interval is cleared, so the rest of the
trace is never fetched), one FAILED progress event carrying the reason is
emitted, and the promise is rejected — at any attempt count with budget
remaining, in both pollers. -/
theorem claim4_not_found_is_immediately_fatal (o : LumaPollOptions) (o2 : RunwayPollOptions)
    (m a : Nat) (e : ApiErrorInfo)
    (hapi : e.isProviderAPIError = true) (h404 : e.status = 404) (hm : a + 1 ≤ m) :
    (∀ rest, pollLoop (lumaTick o) (lumaTimeoutError o) m a (FetchResult.err e :: rest)
      = { attempts := a + 1
          events := [("FAILED", some [("reason",
            "Generation ID " ++ o.generationId ++ " not found.")])]
          outcome := PollOutcome.rejected ⟨ErrorCode.InvalidRequest,
            "Luma AI generation ID " ++ o.generationId ++ " not found."⟩ })
    ∧ (∀ rest2, pollLoop (runwayTick o2) (runwayTimeoutError o2) m a (FetchResult.err e :: rest2)
      = { attempts := a + 1
          events := [("FAILED", some [("reason", "Task ID " ++ o2.taskId ++ " not found.")])]
          outcome := PollOutcome.rejected ⟨ErrorCode.InvalidRequest,
            "RunwayML task ID " ++ o2.taskId ++ " not found."⟩ }) := by
  constructor
  · intro rest
    rw [pollLoop_cons_terminal _ _ m a _ rest
      (Terminal.rejected ⟨ErrorCode.InvalidRequest,
        "Luma AI generation ID " ++ o.generationId ++ " not found."⟩)
      (by rw [lumaTick_err_404 o e hapi h404]) hm]
    rw [lumaTick_err_404 o e hapi h404]
    rfl
  · intro rest2
    rw [pollLoop_cons_terminal _ _ m a _ rest2
      (Terminal.rejected ⟨ErrorCode.InvalidRequest,
        "RunwayML task ID " ++ o2.taskId ++ " not found."⟩)
      (by rw [runwayTick_err_404 o2 e hapi h404]) hm]
    rw [runwayTick_err_404 o2 e hapi h404]
    rfl

/-- Witness for C4 at a concrete session: the 404 arrives at attempt 5 of
60 and some further fetch results are queued behind it. -/
theorem claim4_witness :
    pollLoop (lumaTick ⟨"g1", none, none⟩) (lumaTimeoutError ⟨"g1", none, none⟩) 60 4
        (FetchResult.err ⟨true, 404, "not found"⟩
          :: [FetchResult.ok ⟨"queued", none, none⟩])
      = { attempts := 5
          events := [("FAILED", some [("reason", "Generation ID g1 not found.")])]
          outcome := PollOutcome.rejected ⟨ErrorCode.InvalidRequest,
            "Luma AI generation ID g1 not found."⟩ }
    ∧ pollLoop (runwayTick ⟨"t1", none⟩) (runwayTimeoutError ⟨"t1", none⟩) 60 4
        (FetchResult.err ⟨true, 404, "not found"⟩
          :: [FetchResult.ok ⟨"PENDING", none⟩])
      = { attempts := 5
          events := [("FAILED", some [("reason", "Task ID t1 not found.")])]
          outcome := PollOutcome.rejected ⟨ErrorCode.InvalidRequest,
            "RunwayML task ID t1 not found."⟩ } :=
  ⟨(claim4_not_found_is_immediately_fatal ⟨"g1", none, none⟩ ⟨"t1", none⟩ 60 4
      ⟨true, 404, "not found"⟩ (by decide) (by decide) (by omega)).1
      [FetchResult.ok ⟨"queued", none, none⟩],
   (claim4_not_found_is_immediately_fatal ⟨"g1", none, none⟩ ⟨"t1", none⟩ 60 4
      ⟨true, 404, "not found"⟩ (by decide) (by decide) (by omega)).2
      [FetchResult.ok ⟨"PENDING", none⟩]⟩

/-- C3: a tick whose snapshot classifies as SUCCESS but whose extracted
asset URL is missing or empty — an empty or absent Runway output list, or
an absent/empty selected Luma asset field — terminates the session as
FAILED (the promise is rejected, not resolved) and emits one FAILED
progress event whose reason states that the task completed without a
result asset, in both pollers, at any attempt count with budget
remaining. -/
theorem claim3_success_without_asset_fails (o : LumaPollOptions) (o2 : RunwayPollOptions)
    (m a : Nat) (g : LumaGeneration) (t : RunwayTask) (hm : a + 1 ≤ m) :
    (g.state = "completed" →
      jsTruthy (lumaAssetSelect (o.expectedAssetType.getD "video") g.assets).1 = false →
      ∀ rest, pollLoop (lumaTick o) (lumaTimeoutError o) m a (FetchResult.ok g :: rest)
        = { attempts := a + 1
            events := [("FAILED", some [("reason",
              "Task completed but no " ++ (o.expectedAssetType.getD "video") ++ " URL found.")])]
            outcome := PollOutcome.rejected ⟨ErrorCode.InternalError,
              "Luma AI task " ++ o.generationId ++ " Task completed but no "
                ++ (o.expectedAssetType.getD "video") ++ " URL found."⟩ })
    ∧ (t.status = "SUCCEEDED" → (t.output = none ∨ t.output = some []) →
      ∀ rest2, pollLoop (runwayTick o2) (runwayTimeoutError o2) m a (FetchResult.ok t :: rest2)
        = { attempts := a + 1
            events := [("FAILED", some [("reason", "Task succeeded but no output URL found.")])]
            outcome := PollOutcome.rejected ⟨ErrorCode.InternalError,
              "RunwayML task " ++ o2.taskId ++ " succeeded but returned no output URL."⟩ }) := by
  constructor
  · intro hst hurl rest
    rw [pollLoop_cons_terminal _ _ m a _ rest
      (Terminal.rejected ⟨ErrorCode.InternalError,
        "Luma AI task " ++ o.generationId ++ " Task completed but no "
          ++ (o.expectedAssetType.getD "video") ++ " URL found."⟩)
      (by rw [lumaTick_completed_no_asset o g hst hurl]) hm]
    rw [lumaTick_completed_no_asset o g hst hurl]
    rfl
  · intro hst hout rest2
    rw [pollLoop_cons_terminal _ _ m a _ rest2
      (Terminal.rejected ⟨ErrorCode.InternalError,
        "RunwayML task " ++ o2.taskId ++ " succeeded but returned no output URL."⟩)
      (by rw [runwayTick_succeeded_no_output o2 t hst hout]) hm]
    rw [runwayTick_succeeded_no_output o2 t hst hout]
    rfl

/-- Witness for C3: a Luma video session whose completed snapshot has a
null `assets.video`, and a Runway session whose SUCCEEDED snapshot has an
empty output list. -/
theorem claim3_witness :
    pollLoop (lumaTick ⟨"g2", none, some "video"⟩) (lumaTimeoutError ⟨"g2", none, some "video"⟩)
        60 0 [FetchResult.ok ⟨"completed", some ⟨none, some "https://img/x.png"⟩, none⟩]
      = { attempts := 1
          events := [("FAILED", some [("reason", "Task completed but no video URL found.")])]
          outcome := PollOutcome.rejected ⟨ErrorCode.InternalError,
            "Luma AI task g2 Task completed but no video URL found."⟩ }
    ∧ pollLoop (runwayTick ⟨"t2", none⟩) (runwayTimeoutError ⟨"t2", none⟩)
        60 0 [FetchResult.ok ⟨"SUCCEEDED", some []⟩]
      = { attempts := 1
          events := [("FAILED", some [("reason", "Task succeeded but no output URL found.")])]
          outcome := PollOutcome.rejected ⟨ErrorCode.InternalError,
            "RunwayML task t2 succeeded but returned no output URL."⟩ } :=
  ⟨(claim3_success_without_asset_fails ⟨"g2", none, some "video"⟩ ⟨"t2", none⟩ 60 0
      ⟨"completed", some ⟨none, some "https://img/x.png"⟩, none⟩ ⟨"SUCCEEDED", some []⟩
      (by omega)).1 (by decide) (by decide) [],
   (claim3_success_without_asset_fails ⟨"g2", none, some "video"⟩ ⟨"t2", none⟩ 60 0
      ⟨"completed", some ⟨none, some "https://img/x.png"⟩, none⟩ ⟨"SUCCEEDED", some []⟩
      (by omega)).2 (by decide) (Or.inr (by decide)) []⟩

/-- C8: a Luma snapshot in state `failed` terminates the session as FAILED
with reason `failure_reason` when that field is present and non-empty, and
with the synthesized default `Unknown failure reason` when it is absent;
the same reason appears in the FAILED progress event and in the rejection
message. -/
theorem claim8_failed_state_reason (o : LumaPollOptions) (g : LumaGeneration)
    (m a : Nat) (hst : g.state = "failed") (hm : a + 1 ≤ m) :
    (∀ r, g.failure_reason = some r → r ≠ "" → lumaFailureReasonOf g = r)
    ∧ (g.failure_reason = none → lumaFailureReasonOf g = "Unknown failure reason")
    ∧ ∀ rest, pollLoop (lumaTick o) (lumaTimeoutError o) m a (FetchResult.ok g :: rest)
        = { attempts := a + 1
            events := [("FAILED", some [("reason", lumaFailureReasonOf g)])]
            outcome := PollOutcome.rejected ⟨ErrorCode.InternalError,
              "Luma AI task " ++ o.generationId ++ " failed: " ++ lumaFailureReasonOf g⟩ } := by
  refine ⟨?_, ?_, ?_⟩
  · intro r hr hne
    simp [lumaFailureReasonOf, jsOr, hr, hne]
  · intro hr
    simp [lumaFailureReasonOf, jsOr, hr]
  · intro rest
    rw [pollLoop_cons_terminal _ _ m a _ rest
      (Terminal.rejected ⟨ErrorCode.InternalError,
        "Luma AI task " ++ o.generationId ++ " failed: " ++ lumaFailureReasonOf g⟩)
      (by rw [lumaTick_failed o g hst]) hm]
    rw [lumaTick_failed o g hst]
    rfl

/-- Witness for C8: one failed snapshot carrying an explicit reason and
one with the field absent. -/
theorem claim8_witness :
    lumaFailureReasonOf ⟨"failed", none, some "NSFW content detected"⟩ = "NSFW content detected"
    ∧ lumaFailureReasonOf ⟨"failed", none, none⟩ = "Unknown failure reason"
    ∧ pollLoop (lumaTick ⟨"g3", none, none⟩) (lumaTimeoutError ⟨"g3", none, none⟩) 60 0
        [FetchResult.ok ⟨"failed", none, none⟩]
      = { attempts := 1
          events := [("FAILED", some [("reason", lumaFailureReasonOf ⟨"failed", none, none⟩)])]
          outcome := PollOutcome.rejected ⟨ErrorCode.InternalError,
            "Luma AI task g3 failed: "
              ++ lumaFailureReasonOf ⟨"failed", none, none⟩⟩ } :=
  ⟨(claim8_failed_state_reason ⟨"g3", none, none⟩ ⟨"failed", none, some "NSFW content detected"⟩
      60 0 (by decide) (by omega)).1 "NSFW content detected" (by decide) (by decide),
   (claim8_failed_state_reason ⟨"g3", none, none⟩ ⟨"failed", none, none⟩
      60 0 (by decide) (by omega)).2.1 (by decide),
   (claim8_failed_state_reason ⟨"g3", none, none⟩ ⟨"failed", none, none⟩
      60 0 (by decide) (by omega)).2.2 []⟩

/-- C10: `lumaGenerateImageTool` starts its poll session without passing
an `expectedAssetType`, so polling uses the destructuring default `video`
and reads `assets.video` on completion; a completed image generation whose
snapshot has only `assets.image` populated is therefore rejected as FAILED
with reason `Task completed but no video URL found.` instead of resolving
the image URL. -/
theorem claim10_image_tool_polls_for_video (generationId url : String)
    (tok : Option String) (m : Nat) (hm : 1 ≤ m) :
    (lumaGenerateImagePollOptions generationId tok).expectedAssetType = none
    ∧ ((lumaGenerateImagePollOptions generationId tok).expectedAssetType.getD "video") = "video"
    ∧ ∀ rest,
      pollLumaTaskBounded (lumaGenerateImagePollOptions generationId tok) m
          (FetchResult.ok ⟨"completed", some ⟨none, some url⟩, none⟩ :: rest)
        = { attempts := 1
            events := [("FAILED", some [("reason", "Task completed but no video URL found.")])]
            outcome := PollOutcome.rejected ⟨ErrorCode.InternalError,
              "Luma AI task " ++ generationId ++ " Task completed but no video URL found."⟩ } := by
  refine ⟨rfl, rfl, ?_⟩
  intro rest
  have hterm := lumaTick_completed_no_asset (lumaGenerateImagePollOptions generationId tok)
    ⟨"completed", some ⟨none, some url⟩, none⟩ rfl rfl
  rw [pollLumaTaskBounded]
  rw [pollLoop_cons_terminal _ _ m 0 _ rest _ (by rw [hterm]) (by omega), hterm]
  simp only [Terminal.toOutcome, lumaGenerateImagePollOptions, Option.getD,
    String.append_assoc]
  rfl

/-- Witness for C10 at a concrete session with only `assets.image`
populated. -/
theorem claim10_witness :
    pollLumaTaskBounded (lumaGenerateImagePollOptions "g7" (some "tok-1")) 60
        [FetchResult.ok ⟨"completed", some ⟨none, some "https://img/x.png"⟩, none⟩]
      = { attempts := 1
          events := [("FAILED", some [("reason", "Task completed but no video URL found.")])]
          outcome := PollOutcome.rejected ⟨ErrorCode.InternalError,
            "Luma AI task g7 Task completed but no video URL found."⟩ } :=
  (claim10_image_tool_polls_for_video "g7" "https://img/x.png" (some "tok-1") 60
    (by omega)).2.2 []

/-- C9 is false on the code in one respect: for provider `runwayml` the
dispatch does fall through to the invalid-provider branch and no job is
created, but the `throw McpError(InvalidParams, 'Invalid provider: ...')`
happens inside the tool's `try` block, and the tool's own `catch` re-wraps
it, so the error the caller observes has code `InternalError`, not
`InvalidParams`. -/
theorem claim9_counterexample :
    generateTextToVideoTool (some "runwayml")
      = T2VResult.failed ⟨ErrorCode.InternalError,
          "Failed to initiate runwayml text-to-video task: MCP error -32602: Invalid provider: runwayml"⟩
    ∧ ErrorCode.InternalError ≠ ErrorCode.InvalidParams := by
  exact ⟨by decide, by decide⟩

/-- C9 (amended): for every invocation of the `generate_text_to_video`
tool whose validated provider is `runwayml` — the schema default when
`provider` is omitted — the tool creates no remote job and throws an
`McpError` whose message contains `Invalid provider: runwayml`; the
invalid-provider branch throws `InvalidParams`, but the tool's `catch`
block re-wraps that error, so the thrown error has code `InternalError`
and message `Failed to initiate runwayml text-to-video task: MCP error
-32602: Invalid provider: runwayml`; only provider `lumaai` can initiate a
job through this tool. -/
theorem claim9_amended :
    parseProvider none = Except.ok "runwayml"
    ∧ generateTextToVideoTool none
      = T2VResult.failed ⟨ErrorCode.InternalError,
          "Failed to initiate runwayml text-to-video task: MCP error -32602: Invalid provider: runwayml"⟩
    ∧ (∃ pre suf,
        "Failed to initiate runwayml text-to-video task: MCP error -32602: Invalid provider: runwayml"
          = pre ++ ("Invalid provider: runwayml" ++ suf))
    ∧ generateTextToVideoTool (some "lumaai") = T2VResult.lumaJobStarted
    ∧ ∀ p, generateTextToVideoTool p = T2VResult.lumaJobStarted → p = some "lumaai" := by
  refine ⟨rfl, by decide,
    ⟨"Failed to initiate runwayml text-to-video task: MCP error -32602: ", "", by decide⟩,
    by decide, ?_⟩
  intro p hp
  match p with
  | none => exact absurd hp (by decide)
  | some s =>
    by_cases h1 : s = "lumaai"
    · rw [h1]
    · exfalso
      by_cases h2 : s = "runwayml"
      · subst h2
        exact absurd hp (by decide)
      · simp [generateTextToVideoTool, parseProvider, generateTextToVideoBody, h1, h2] at hp

/-- Witness for C9 (amended): the only provider value that reaches job
initiation is `lumaai`. -/
theorem claim9_amended_witness : (some "lumaai" : Option String) = some "lumaai" :=
  claim9_amended.2.2.2.2 (some "lumaai") (by decide)

/-- C5: a status fetch that throws a transport error other than a
provider APIError with status 404, at an attempt with budget remaining,
does not terminate the session: a POLLING_ERROR progress event carrying
the error message is emitted and the run continues into the next tick;
when the attempt is not the last allowed one, the next attempt's fetch is
issued, and a terminal classification it delivers is acted on, its events
appearing after the POLLING_ERROR event — in both pollers. -/
theorem claim5_transient_error_does_not_terminate (o : LumaPollOptions)
    (o2 : RunwayPollOptions) (m a : Nat) (e : ApiErrorInfo)
    (h404 : ¬(e.isProviderAPIError = true ∧ e.status = 404)) :
    (∀ rest, a + 1 ≤ m →
      pollLoop (lumaTick o) (lumaTimeoutError o) m a (FetchResult.err e :: rest)
        = { attempts := (pollLoop (lumaTick o) (lumaTimeoutError o) m (a + 1) rest).attempts
            events := ("POLLING_ERROR", some [("message", e.message)])
              :: (pollLoop (lumaTick o) (lumaTimeoutError o) m (a + 1) rest).events
            outcome := (pollLoop (lumaTick o) (lumaTimeoutError o) m (a + 1) rest).outcome })
    ∧ (∀ r rest (term : Terminal), a + 2 ≤ m → (lumaTick o r).2 = some term →
      pollLoop (lumaTick o) (lumaTimeoutError o) m a (FetchResult.err e :: r :: rest)
        = { attempts := a + 2
            events := ("POLLING_ERROR", some [("message", e.message)]) :: (lumaTick o r).1
            outcome := term.toOutcome })
    ∧ (∀ rest2, a + 1 ≤ m →
      pollLoop (runwayTick o2) (runwayTimeoutError o2) m a (FetchResult.err e :: rest2)
        = { attempts := (pollLoop (runwayTick o2) (runwayTimeoutError o2) m (a + 1) rest2).attempts
            events := ("POLLING_ERROR", some [("message", e.message)])
              :: (pollLoop (runwayTick o2) (runwayTimeoutError o2) m (a + 1) rest2).events
            outcome := (pollLoop (runwayTick o2) (runwayTimeoutError o2) m (a + 1) rest2).outcome })
    ∧ (∀ r2 rest2 (term : Terminal), a + 2 ≤ m → (runwayTick o2 r2).2 = some term →
      pollLoop (runwayTick o2) (runwayTimeoutError o2) m a (FetchResult.err e :: r2 :: rest2)
        = { attempts := a + 2
            events := ("POLLING_ERROR", some [("message", e.message)]) :: (runwayTick o2 r2).1
            outcome := term.toOutcome }) := by
  refine ⟨?_, ?_, ?_, ?_⟩
  · intro rest hm
    rw [pollLoop_cons_nonterminal _ _ m a _ rest
      (by rw [lumaTick_err_non404 o e h404]) hm]
    rw [lumaTick_err_non404 o e h404]
    rfl
  · intro r rest term hm hterm
    rw [pollLoop_cons_nonterminal _ _ m a _ (r :: rest)
      (by rw [lumaTick_err_non404 o e h404]) (by omega)]
    rw [pollLoop_cons_terminal _ _ m (a + 1) r rest term hterm (by omega)]
    rw [lumaTick_err_non404 o e h404]
    rfl
  · intro rest2 hm
    rw [pollLoop_cons_nonterminal _ _ m a _ rest2
      (by rw [runwayTick_err_non404 o2 e h404]) hm]
    rw [runwayTick_err_non404 o2 e h404]
    rfl
  · intro r2 rest2 term hm hterm
    rw [pollLoop_cons_nonterminal _ _ m a _ (r2 :: rest2)
      (by rw [runwayTick_err_non404 o2 e h404]) (by omega)]
    rw [pollLoop_cons_terminal _ _ m (a + 1) r2 rest2 term hterm (by omega)]
    rw [runwayTick_err_non404 o2 e h404]
    rfl

/-- Witness for C5: an ECONNRESET at attempt 1 followed by a terminal
`failed` / `FAILED` snapshot at attempt 2. -/
theorem claim5_witness :
    pollLoop (lumaTick ⟨"g4", none, none⟩) (lumaTimeoutError ⟨"g4", none, none⟩) 60 0
        [FetchResult.err ⟨false, 500, "ECONNRESET"⟩, FetchResult.ok ⟨"failed", none, none⟩]
      = { attempts := 2
          events := [("POLLING_ERROR", some [("message", "ECONNRESET")]),
            ("FAILED", some [("reason", "Unknown failure reason")])]
          outcome := PollOutcome.rejected ⟨ErrorCode.InternalError,
            "Luma AI task g4 failed: Unknown failure reason"⟩ }
    ∧ pollLoop (runwayTick ⟨"t4", none⟩) (runwayTimeoutError ⟨"t4", none⟩) 60 0
        [FetchResult.err ⟨false, 500, "ECONNRESET"⟩, FetchResult.ok ⟨"FAILED", none⟩]
      = { attempts := 2
          events := [("POLLING_ERROR", some [("message", "ECONNRESET")]),
            ("FAILED", some [("reason", "RunwayML task failed (Status: FAILED)")])]
          outcome := PollOutcome.rejected ⟨ErrorCode.InternalError,
            "RunwayML task failed (Status: FAILED)"⟩ } :=
  ⟨(claim5_transient_error_does_not_terminate ⟨"g4", none, none⟩ ⟨"t4", none⟩ 60 0
      ⟨false, 500, "ECONNRESET"⟩ (by decide)).2.1
      (FetchResult.ok ⟨"failed", none, none⟩) []
      (Terminal.rejected ⟨ErrorCode.InternalError,
        "Luma AI task g4 failed: Unknown failure reason"⟩) (by omega) (by decide),
   (claim5_transient_error_does_not_terminate ⟨"g4", none, none⟩ ⟨"t4", none⟩ 60 0
      ⟨false, 500, "ECONNRESET"⟩ (by decide)).2.2.2
      (FetchResult.ok ⟨"FAILED", none⟩) []
      (Terminal.rejected ⟨ErrorCode.InternalError,
        "RunwayML task failed (Status: FAILED)"⟩) (by omega) (by decide)⟩

/-- C6: once a terminal classification is reached within the attempt
budget, the poller settles its promise exactly once (the outcome equals
that tick's classification and is not `running`), and later trace entries
cause no fetch, emission or settlement: the run on the trace extended past
the first terminal tick is identical to the run that stops there — in both
pollers. -/
theorem claim6_first_terminal_settles_once (o : LumaPollOptions)
    (o2 : RunwayPollOptions) (m : Nat) :
    (∀ pre (t : FetchResult LumaGeneration) (term : Terminal) post,
      (∀ x ∈ pre, (lumaTick o x).2 = none) → (lumaTick o t).2 = some term →
      pre.length + 1 ≤ m →
      pollLumaTaskBounded o m (pre ++ t :: post) = pollLumaTaskBounded o m (pre ++ [t])
      ∧ (pollLumaTaskBounded o m (pre ++ [t])).outcome = term.toOutcome
      ∧ term.toOutcome ≠ PollOutcome.running)
    ∧ (∀ pre (t : FetchResult RunwayTask) (term : Terminal) post,
      (∀ x ∈ pre, (runwayTick o2 x).2 = none) → (runwayTick o2 t).2 = some term →
      pre.length + 1 ≤ m →
      pollRunwayTaskBounded o2 m (pre ++ t :: post) = pollRunwayTaskBounded o2 m (pre ++ [t])
      ∧ (pollRunwayTaskBounded o2 m (pre ++ [t])).outcome = term.toOutcome
      ∧ term.toOutcome ≠ PollOutcome.running) := by
  constructor
  · intro pre t term post hpre hterm hm
    have h1 := pollLoop_append_nonterminal (lumaTick o) (lumaTimeoutError o) m
      pre (t :: post) 0 hpre (by omega)
    have h2 := pollLoop_append_nonterminal (lumaTick o) (lumaTimeoutError o) m
      pre [t] 0 hpre (by omega)
    have h3 := pollLoop_cons_terminal (lumaTick o) (lumaTimeoutError o) m
      (0 + pre.length) t post term hterm (by omega)
    have h4 := pollLoop_cons_terminal (lumaTick o) (lumaTimeoutError o) m
      (0 + pre.length) t [] term hterm (by omega)
    refine ⟨?_, ?_, ?_⟩
    · rw [pollLumaTaskBounded, pollLumaTaskBounded, h1, h2, h3, h4]
    · rw [pollLumaTaskBounded, h2, h4]
    · cases term <;> simp [Terminal.toOutcome]
  · intro pre t term post hpre hterm hm
    have h1 := pollLoop_append_nonterminal (runwayTick o2) (runwayTimeoutError o2) m
      pre (t :: post) 0 hpre (by omega)
    have h2 := pollLoop_append_nonterminal (runwayTick o2) (runwayTimeoutError o2) m
      pre [t] 0 hpre (by omega)
    have h3 := pollLoop_cons_terminal (runwayTick o2) (runwayTimeoutError o2) m
      (0 + pre.length) t post term hterm (by omega)
    have h4 := pollLoop_cons_terminal (runwayTick o2) (runwayTimeoutError o2) m
      (0 + pre.length) t [] term hterm (by omega)
    refine ⟨?_, ?_, ?_⟩
    · rw [pollRunwayTaskBounded, pollRunwayTaskBounded, h1, h2, h3, h4]
    · rw [pollRunwayTaskBounded, h2, h4]
    · cases term <;> simp [Terminal.toOutcome]

/-- Witness for C6: a SUCCEEDED snapshot at attempt 2 of 60, with further
(hypothetical) fetch results queued behind it, settles the run
identically with or without the extra entries. -/
theorem claim6_witness :
    pollLumaTaskBounded ⟨"g5", none, none⟩ 60
        ([FetchResult.ok ⟨"queued", none, none⟩]
          ++ FetchResult.ok ⟨"completed", some ⟨some "https://x/v.mp4", none⟩, none⟩
            :: [FetchResult.ok ⟨"dreaming", none, none⟩])
      = pollLumaTaskBounded ⟨"g5", none, none⟩ 60
          ([FetchResult.ok ⟨"queued", none, none⟩]
            ++ [FetchResult.ok ⟨"completed", some ⟨some "https://x/v.mp4", none⟩, none⟩])
    ∧ (pollLumaTaskBounded ⟨"g5", none, none⟩ 60
        ([FetchResult.ok ⟨"queued", none, none⟩]
          ++ [FetchResult.ok ⟨"completed", some ⟨some "https://x/v.mp4", none⟩, none⟩])).outcome
      = (Terminal.resolved "https://x/v.mp4").toOutcome
    ∧ (Terminal.resolved "https://x/v.mp4").toOutcome ≠ PollOutcome.running :=
  (claim6_first_terminal_settles_once ⟨"g5", none, none⟩ ⟨"t5", none⟩ 60).1
    [FetchResult.ok ⟨"queued", none, none⟩]
    (FetchResult.ok ⟨"completed", some ⟨some "https://x/v.mp4", none⟩, none⟩)
    (Terminal.resolved "https://x/v.mp4")
    [FetchResult.ok ⟨"dreaming", none, none⟩]
    (by decide) (by decide) (by decide)

/-- C2: if `maxAttempts` attempts elapse with no terminal classification,
the session terminates as TIMED_OUT (the promise is rejected with the
timeout error), a TIMEOUT progress event is emitted exactly once, and no
further status fetch is issued (extending the trace changes nothing); and
status classification takes priority over the attempt-count check: a
terminal status returned by the fetch on the very last allowed attempt
still settles as that classification, with no TIMEOUT event at all — in
both pollers. -/
theorem claim2_timeout_after_max_attempts (o : LumaPollOptions)
    (o2 : RunwayPollOptions) (m : Nat) :
    (∀ trace : List (FetchResult LumaGeneration),
      (∀ r ∈ trace, (lumaTick o r).2 = none) → trace.length = m →
      (pollLumaTaskBounded o m trace).outcome = PollOutcome.rejected (lumaTimeoutError o)
      ∧ countStatus "TIMEOUT" (pollLumaTaskBounded o m trace).events = 1
      ∧ ∀ extra, pollLumaTaskBounded o m (trace ++ extra) = pollLumaTaskBounded o m trace)
    ∧ (∀ pre (r : FetchResult LumaGeneration) (term : Terminal) post,
      (∀ x ∈ pre, (lumaTick o x).2 = none) → pre.length + 1 = m →
      (lumaTick o r).2 = some term →
      (pollLumaTaskBounded o m (pre ++ r :: post)).outcome = term.toOutcome
      ∧ countStatus "TIMEOUT" (pollLumaTaskBounded o m (pre ++ r :: post)).events = 0)
    ∧ (∀ trace2 : List (FetchResult RunwayTask),
      (∀ r ∈ trace2, (runwayTick o2 r).2 = none) → trace2.length = m →
      (pollRunwayTaskBounded o2 m trace2).outcome = PollOutcome.rejected (runwayTimeoutError o2)
      ∧ countStatus "TIMEOUT" (pollRunwayTaskBounded o2 m trace2).events = 1
      ∧ ∀ extra, pollRunwayTaskBounded o2 m (trace2 ++ extra) = pollRunwayTaskBounded o2 m trace2)
    ∧ (∀ pre2 (r2 : FetchResult RunwayTask) (term : Terminal) post2,
      (∀ x ∈ pre2, (runwayTick o2 x).2 = none) → pre2.length + 1 = m →
      (runwayTick o2 r2).2 = some term →
      (pollRunwayTaskBounded o2 m (pre2 ++ r2 :: post2)).outcome = term.toOutcome
      ∧ countStatus "TIMEOUT" (pollRunwayTaskBounded o2 m (pre2 ++ r2 :: post2)).events = 0) := by
  have hlno : ∀ r, ∀ c ∈ (lumaTick o r).1, c.1 ≠ "TIMEOUT" := fun r =>
    lumaTickOnResult_no_timeout o.generationId (o.expectedAssetType.getD "video") r
  have hrno : ∀ r, ∀ c ∈ (runwayTick o2 r).1, c.1 ≠ "TIMEOUT" := fun r =>
    runwayTickOnResult_no_timeout o2.taskId r
  refine ⟨?_, ?_, ?_, ?_⟩
  · intro trace hnt hlen
    have hfold := fun (suf : List (FetchResult LumaGeneration)) =>
      pollLoop_append_nonterminal (lumaTick o) (lumaTimeoutError o) m
        trace suf 0 hnt (by omega)
    have hto := fun (suf : List (FetchResult LumaGeneration)) =>
      pollLoop_timeout (lumaTick o) (lumaTimeoutError o) m (0 + trace.length) suf (by omega)
    refine ⟨?_, ?_, ?_⟩
    · rw [pollLumaTaskBounded, ← List.append_nil trace, hfold [], hto []]
    · rw [pollLumaTaskBounded, ← List.append_nil trace, hfold [], hto []]
      rw [countStatus_append,
        countStatus_timeout_flatten_zero (lumaTick o) hlno trace]
      rfl
    · intro extra
      rw [pollLumaTaskBounded, pollLumaTaskBounded, hfold extra, hto extra]
      rw [← List.append_nil trace, hfold [], hto []]
      simp
  · intro pre r term post hpre hlen hterm
    have hfold := pollLoop_append_nonterminal (lumaTick o) (lumaTimeoutError o) m
      pre (r :: post) 0 hpre (by omega)
    have hstop := pollLoop_cons_terminal (lumaTick o) (lumaTimeoutError o) m
      (0 + pre.length) r post term hterm (by omega)
    refine ⟨?_, ?_⟩
    · rw [pollLumaTaskBounded, hfold, hstop]
    · rw [pollLumaTaskBounded, hfold, hstop]
      rw [countStatus_append,
        countStatus_timeout_flatten_zero (lumaTick o) hlno pre,
        countStatus_eq_zero "TIMEOUT" (lumaTick o r).1 (fun c hc => hlno r c hc)]
  · intro trace2 hnt hlen
    have hfold := fun (suf : List (FetchResult RunwayTask)) =>
      pollLoop_append_nonterminal (runwayTick o2) (runwayTimeoutError o2) m
        trace2 suf 0 hnt (by omega)
    have hto := fun (suf : List (FetchResult RunwayTask)) =>
      pollLoop_timeout (runwayTick o2) (runwayTimeoutError o2) m (0 + trace2.length) suf (by omega)
    refine ⟨?_, ?_, ?_⟩
    · rw [pollRunwayTaskBounded, ← List.append_nil trace2, hfold [], hto []]
    · rw [pollRunwayTaskBounded, ← List.append_nil trace2, hfold [], hto []]
      rw [countStatus_append,
        countStatus_timeout_flatten_zero (runwayTick o2) hrno trace2]
      rfl
    · intro extra
      rw [pollRunwayTaskBounded, pollRunwayTaskBounded, hfold extra, hto extra]
      rw [← List.append_nil trace2, hfold [], hto []]
      simp
  · intro pre2 r2 term post2 hpre hlen hterm
    have hfold := pollLoop_append_nonterminal (runwayTick o2) (runwayTimeoutError o2) m
      pre2 (r2 :: post2) 0 hpre (by omega)
    have hstop := pollLoop_cons_terminal (runwayTick o2) (runwayTimeoutError o2) m
      (0 + pre2.length) r2 post2 term hterm (by omega)
    refine ⟨?_, ?_⟩
    · rw [pollRunwayTaskBounded, hfold, hstop]
    · rw [pollRunwayTaskBounded, hfold, hstop]
      rw [countStatus_append,
        countStatus_timeout_flatten_zero (runwayTick o2) hrno pre2,
        countStatus_eq_zero "TIMEOUT" (runwayTick o2 r2).1 (fun c hc => hrno r2 c hc)]

/-- Witness for C2: two non-terminal ticks against a bound of 2 time out
with one TIMEOUT event, and a terminal snapshot arriving exactly on the
last allowed attempt still resolves. -/
theorem claim2_witness :
    (pollLumaTaskBounded ⟨"g6", none, none⟩ 2
        [FetchResult.ok ⟨"queued", none, none⟩, FetchResult.ok ⟨"dreaming", none, none⟩]).outcome
      = PollOutcome.rejected (lumaTimeoutError ⟨"g6", none, none⟩)
    ∧ countStatus "TIMEOUT" (pollLumaTaskBounded ⟨"g6", none, none⟩ 2
        [FetchResult.ok ⟨"queued", none, none⟩, FetchResult.ok ⟨"dreaming", none, none⟩]).events = 1
    ∧ (pollRunwayTaskBounded ⟨"t6", none⟩ 2
        ([FetchResult.ok ⟨"PENDING", none⟩]
          ++ FetchResult.ok ⟨"SUCCEEDED", some ["https://x/v.mp4"]⟩ :: [])).outcome
      = (Terminal.resolved "https://x/v.mp4").toOutcome :=
  ⟨((claim2_timeout_after_max_attempts ⟨"g6", none, none⟩ ⟨"t6", none⟩ 2).1
      [FetchResult.ok ⟨"queued", none, none⟩, FetchResult.ok ⟨"dreaming", none, none⟩]
      (by decide) (by decide)).1,
   ((claim2_timeout_after_max_attempts ⟨"g6", none, none⟩ ⟨"t6", none⟩ 2).1
      [FetchResult.ok ⟨"queued", none, none⟩, FetchResult.ok ⟨"dreaming", none, none⟩]
      (by decide) (by decide)).2.1,
   ((claim2_timeout_after_max_attempts ⟨"g6", none, none⟩ ⟨"t6", none⟩ 2).2.2.2
      [FetchResult.ok ⟨"PENDING", none⟩]
      (FetchResult.ok ⟨"SUCCEEDED", some ["https://x/v.mp4"]⟩)
      (Terminal.resolved "https://x/v.mp4") []
      (by decide) (by decide) (by decide)).1⟩

end VideoGen
